import Mathlib

/-!
Verification of `scripts/generate_pen_icons.py`.

The script computes a fixed set of polygons describing a stylized pen from a
single integer `size`, draws them onto a freshly created square canvas in a
fixed order, and saves the canvas as a PNG file.  We embed the geometry over
`ℝ` (the Python code uses floating point; the claims are about the ideal
real-valued geometry it encodes), and the draw/save/print behaviour as
explicit lists of operations and events.
-/

namespace PenIcons

/-! ### Palette constants (source lines 13–18) -/

def BACKGROUND : String := "#020617"

def PEN_BODY : String := "#38bdf8"

def PEN_SHADOW : String := "#0ea5e9"

def PEN_CLIP : String := "#bae6fd"

def PEN_NIB : String := "#f8fafc"

def PEN_NIB_LINE : String := "#94a3b8"

/-! ### Geometry (source lines 20–81)

`_offset_point` translates a point by a vector.  `end` is a Lean keyword, so
the source's `end` point is named `endP` here.  Python's `math.hypot(dx, dy)`
is `Real.sqrt (dx^2 + dy^2)`.  Python's `int()` truncates toward zero, which
for the nonnegative value `width * 0.08` is the floor.
-/

noncomputable def offset_point (point vector : ℝ × ℝ) : ℝ × ℝ :=
  (point.1 + vector.1, point.2 + vector.2)

noncomputable def startP (size : ℕ) : ℝ × ℝ := (size * 0.28, size * 0.18)

noncomputable def endP (size : ℕ) : ℝ × ℝ := (size * 0.78, size * 0.78)

noncomputable def width (size : ℕ) : ℝ := size * 0.16

noncomputable def dx (size : ℕ) : ℝ := (endP size).1 - (startP size).1

noncomputable def dy (size : ℕ) : ℝ := (endP size).2 - (startP size).2

noncomputable def length (size : ℕ) : ℝ := Real.sqrt (dx size ^ 2 + dy size ^ 2)

noncomputable def ux (size : ℕ) : ℝ := dx size / length size

noncomputable def uy (size : ℕ) : ℝ := dy size / length size

noncomputable def px (size : ℕ) : ℝ := -uy size

noncomputable def py (size : ℕ) : ℝ := ux size

noncomputable def half (size : ℕ) : ℝ := width size / 2

noncomputable def perp (size : ℕ) : ℝ × ℝ := (px size * half size, py size * half size)

noncomputable def body (size : ℕ) : List (ℝ × ℝ) :=
  [ offset_point (startP size) (perp size),
    offset_point (endP size) (perp size),
    offset_point (endP size) (-(perp size).1, -(perp size).2),
    offset_point (startP size) (-(perp size).1, -(perp size).2) ]

noncomputable def shadow (size : ℕ) : List (ℝ × ℝ) :=
  [ offset_point (startP size) ((perp size).1 * 0.4, (perp size).2 * 0.4),
    offset_point (endP size) ((perp size).1 * 0.4, (perp size).2 * 0.4),
    offset_point (endP size) (-(perp size).1 * 0.6, -(perp size).2 * 0.6),
    offset_point (startP size) (-(perp size).1 * 0.6, -(perp size).2 * 0.6) ]

noncomputable def nib_length (size : ℕ) : ℝ := width size * 0.85

noncomputable def nib_tip (size : ℕ) : ℝ × ℝ :=
  offset_point (endP size) (ux size * nib_length size, uy size * nib_length size)

noncomputable def nib (size : ℕ) : List (ℝ × ℝ) :=
  [ offset_point (endP size) (perp size),
    nib_tip size,
    offset_point (endP size) (-(perp size).1, -(perp size).2) ]

/-- Stroke width of the nib centerline: the source passes `int(width * 0.08)`
to `draw.line`; `int` truncates toward zero, and `width * 0.08 ≥ 0`, so this
is the floor. -/
noncomputable def line_width (size : ℕ) : ℤ := ⌊width size * 0.08⌋

noncomputable def eraser_length (size : ℕ) : ℝ := width size * 0.9

noncomputable def eraser_start (size : ℕ) : ℝ × ℝ :=
  offset_point (startP size) (-ux size * eraser_length size, -uy size * eraser_length size)

noncomputable def eraser (size : ℕ) : List (ℝ × ℝ) :=
  [ offset_point (eraser_start size) (perp size),
    offset_point (startP size) (perp size),
    offset_point (startP size) (-(perp size).1, -(perp size).2),
    offset_point (eraser_start size) (-(perp size).1, -(perp size).2) ]

/-- Assigned on source line 75 but never used afterwards. -/
noncomputable def clip_offset (size : ℕ) : ℝ := half size * 0.6

noncomputable def clip (size : ℕ) : List (ℝ × ℝ) :=
  [ offset_point (startP size) ((perp size).1 * 0.5, (perp size).2 * 0.5),
    offset_point (startP size) (-(perp size).1 * 0.2, -(perp size).2 * 0.2),
    offset_point (offset_point (startP size) (-ux size * width size, -uy size * width size))
      (-(perp size).1 * 0.2, -(perp size).2 * 0.2),
    offset_point (offset_point (startP size) (-ux size * width size, -uy size * width size))
      ((perp size).1 * 0.5, (perp size).2 * 0.5) ]

/-! ### Draw operations (source lines 24–82) -/

/-- One drawing operation performed by `create_icon`: the canvas creation with
its background fill, a filled polygon, or a stroked line. -/
inductive DrawOp where
  | newCanvas (mode : String) (w h : ℕ) (color : String)
  | polygon (pts : List (ℝ × ℝ)) (fill : String)
  | line (pts : List (ℝ × ℝ)) (fill : String) (w : ℤ)

/-- The complete sequence of draw calls issued by `create_icon size`, in
source order: `Image.new` (background fill), then `draw.polygon(shadow)`,
`draw.polygon(body)`, `draw.polygon(nib)`, `draw.line([nib_tip, end])`,
`draw.polygon(eraser)`, `draw.polygon(clip)`. -/
noncomputable def draw_ops (size : ℕ) : List DrawOp :=
  [ DrawOp.newCanvas "RGBA" size size BACKGROUND,
    DrawOp.polygon (shadow size) PEN_SHADOW,
    DrawOp.polygon (body size) PEN_BODY,
    DrawOp.polygon (nib size) PEN_NIB,
    DrawOp.line [nib_tip size, offset_point (endP size) (0, 0)] PEN_NIB_LINE (line_width size),
    DrawOp.polygon (eraser size) PEN_CLIP,
    DrawOp.polygon (clip size) PEN_SHADOW ]

/-! ### Canvas creation and file output (source lines 24, 84–91) -/

/-- The canvas created by `Image.new("RGBA", (size, size), BACKGROUND)`:
mode, pixel dimensions, and the initial color of every pixel. -/
structure Canvas where
  mode : String
  w : ℕ
  h : ℕ
  pixel : ℕ → ℕ → String

def new_canvas (size : ℕ) : Canvas :=
  { mode := "RGBA", w := size, h := size, pixel := fun _ _ => BACKGROUND }

/-- The format string passed to `img.save`. -/
def save_format : String := "PNG"

/-- Path of the output file relative to the project root:
`ICON_DIR = ROOT / "public" / "icons"`, file name `pen-{size}.png`. -/
def icon_path (size : ℕ) : String := "public/icons/pen-" ++ toString size ++ ".png"

/-- Externally visible events of one `create_icon` call: the file save and the
`print` that follows it. -/
inductive Event where
  | save (path : String) (format : String)
  | printMsg (msg : String)
deriving DecidableEq

def create_icon_events (size : ℕ) : List Event :=
  [ Event.save (icon_path size) save_format,
    Event.printMsg ("Saved " ++ icon_path size) ]

/-- The sizes the driver loops over, in order (source line 90). -/
def main_sizes : List ℕ := [192, 512]

/-- The event trace of `main`: `create_icon` run for each size in order. -/
def main_events : List Event := (main_sizes.map create_icon_events).flatten

/-! ### Derived geometric notions used to state the claims -/

/-- Euclidean distance between two points. -/
noncomputable def pdist (p q : ℝ × ℝ) : ℝ :=
  Real.sqrt ((q.1 - p.1) ^ 2 + (q.2 - p.2) ^ 2)

/-- Dot product of two plane vectors. -/
noncomputable def dotv (u v : ℝ × ℝ) : ℝ := u.1 * v.1 + u.2 * v.2

/-- The spec's description of the body offset vector: "the unit perpendicular
to the start-to-end axis scaled by half of `width`".  Written from the spec's
words, to be compared with the source's `perp`. -/
noncomputable def spec_perp (size : ℕ) : ℝ × ℝ :=
  (width size / 2 * (-(dy size / length size)), width size / 2 * (dx size / length size))

/-! ### Basic facts about the geometry -/

lemma dx_eq (s : ℕ) : dx s = s * (1 / 2) := by
  unfold dx endP startP
  norm_num
  ring

lemma dy_eq (s : ℕ) : dy s = s * (3 / 5) := by
  unfold dy endP startP
  norm_num
  ring

lemma length_pos (s : ℕ) (hs : 0 < s) : 0 < length s := by
  have hsR : (0 : ℝ) < s := by exact_mod_cast hs
  have h1 : (0 : ℝ) < (s * (1 / 2) : ℝ) ^ 2 := by positivity
  have h2 : (0 : ℝ) ≤ (s * (3 / 5) : ℝ) ^ 2 := sq_nonneg _
  unfold length
  rw [dx_eq, dy_eq]
  exact Real.sqrt_pos.mpr (by linarith)

lemma length_sq (s : ℕ) : length s ^ 2 = dx s ^ 2 + dy s ^ 2 :=
  Real.sq_sqrt (by positivity)

lemma unit_norm (s : ℕ) (hs : 0 < s) : ux s ^ 2 + uy s ^ 2 = 1 := by
  have hL := length_pos s hs
  have hL0 : length s ≠ 0 := ne_of_gt hL
  unfold ux uy
  field_simp
  exact (length_sq s).symm

/-- `sqrt ((a*u)^2 + (a*v)^2) = a` when `a ≥ 0` and `(u, v)` is a unit
vector: the length of a nonnegative multiple of a unit vector. -/
lemma sqrt_scale (a u v : ℝ) (ha : 0 ≤ a) (huv : u ^ 2 + v ^ 2 = 1) :
    Real.sqrt ((a * u) ^ 2 + (a * v) ^ 2) = a := by
  have h : (a * u) ^ 2 + (a * v) ^ 2 = a ^ 2 * (u ^ 2 + v ^ 2) := by ring
  rw [h, huv, mul_one, Real.sqrt_sq ha]

/-- Difference of two points, as a vector. -/
noncomputable def vsub (p q : ℝ × ℝ) : ℝ × ℝ := (p.1 - q.1, p.2 - q.2)

lemma spec_perp_eq (s : ℕ) : spec_perp s = perp s := by
  unfold spec_perp perp px py ux uy half
  rw [Prod.mk.injEq]
  constructor <;> ring

lemma perp_unit_sq (s : ℕ) (hs : 0 < s) : px s ^ 2 + py s ^ 2 = 1 := by
  have h := unit_norm s hs
  unfold px py
  rw [neg_sq]
  linarith

lemma width_nonneg (s : ℕ) : 0 ≤ width s := by
  unfold width
  positivity

/-! ### Claims -/

/-- C1: for every positive size, the body polygon is exactly the four vertices
`start+perp`, `end+perp`, `end-perp`, `start-perp` in that order, where `perp`
is the unit perpendicular to the start-to-end axis scaled by half of
`width = 0.16*size`: the offset vector matches the spec's description
(`spec_perp`), and its direction is a unit vector orthogonal to the axis. -/
theorem C1_body_polygon (s : ℕ) (hs : 0 < s) :
    body s =
      [ offset_point (startP s) (spec_perp s),
        offset_point (endP s) (spec_perp s),
        offset_point (endP s) (-(spec_perp s).1, -(spec_perp s).2),
        offset_point (startP s) (-(spec_perp s).1, -(spec_perp s).2) ] ∧
    (-(dy s / length s)) ^ 2 + (dx s / length s) ^ 2 = 1 ∧
    dotv (-(dy s / length s), dx s / length s) (dx s, dy s) = 0 := by
  refine ⟨by rw [spec_perp_eq]; rfl, ?_, ?_⟩
  · have h := unit_norm s hs
    unfold ux uy at h
    rw [neg_sq]
    linarith
  · simp only [dotv]
    ring

theorem C1_witness :
    0 < (192 : ℕ) ∧
    (body 192 =
      [ offset_point (startP 192) (spec_perp 192),
        offset_point (endP 192) (spec_perp 192),
        offset_point (endP 192) (-(spec_perp 192).1, -(spec_perp 192).2),
        offset_point (startP 192) (-(spec_perp 192).1, -(spec_perp 192).2) ] ∧
    (-(dy 192 / length 192)) ^ 2 + (dx 192 / length 192) ^ 2 = 1 ∧
    dotv (-(dy 192 / length 192), dx 192 / length 192) (dx 192, dy 192) = 0) :=
  ⟨by decide, C1_body_polygon 192 (by decide)⟩

/-- C2: `create_icon` issues its draw operations in exactly this fixed
sequence: background fill at canvas creation, shadow polygon, body polygon,
nib triangle, nib centerline, eraser/cap polygon, clip polygon — and no other
draw calls (the list has exactly these seven entries). -/
theorem C2_draw_order (s : ℕ) :
    draw_ops s =
      [ DrawOp.newCanvas "RGBA" s s BACKGROUND,
        DrawOp.polygon (shadow s) PEN_SHADOW,
        DrawOp.polygon (body s) PEN_BODY,
        DrawOp.polygon (nib s) PEN_NIB,
        DrawOp.line [nib_tip s, offset_point (endP s) (0, 0)] PEN_NIB_LINE (line_width s),
        DrawOp.polygon (eraser s) PEN_CLIP,
        DrawOp.polygon (clip s) PEN_SHADOW ] ∧
    (draw_ops s).length = 7 :=
  ⟨rfl, rfl⟩

/-- C3: for every positive size, the nib apex `nib_tip` lies on the ray from
`end` in the unit stroke direction `(ux, uy)` at distance exactly
`0.85*0.16*size` from `end`, and the nib triangle's other two vertices are
`end+perp` and `end-perp`. -/
theorem C3_nib_apex (s : ℕ) (hs : 0 < s) :
    pdist (endP s) (nib_tip s) = 0.85 * (0.16 * s) ∧
    nib_tip s =
      offset_point (endP s) (ux s * (0.85 * (0.16 * s)), uy s * (0.85 * (0.16 * s))) ∧
    nib s =
      [ offset_point (endP s) (perp s), nib_tip s,
        offset_point (endP s) (-(perp s).1, -(perp s).2) ] := by
  have hnl : nib_length s = 0.85 * (0.16 * s) := by
    unfold nib_length width
    ring
  have ha : (0 : ℝ) ≤ nib_length s := by
    unfold nib_length width
    positivity
  have hu := unit_norm s hs
  refine ⟨?_, ?_, rfl⟩
  · have harg : pdist (endP s) (nib_tip s) =
        Real.sqrt ((nib_length s * ux s) ^ 2 + (nib_length s * uy s) ^ 2) := by
      unfold pdist nib_tip offset_point
      congr 1
      ring
    rw [harg, sqrt_scale _ _ _ ha hu, hnl]
  · unfold nib_tip
    rw [hnl]

theorem C3_witness :
    0 < (192 : ℕ) ∧
    (pdist (endP 192) (nib_tip 192) = 0.85 * (0.16 * 192) ∧
    nib_tip 192 =
      offset_point (endP 192)
        (ux 192 * (0.85 * (0.16 * 192)), uy 192 * (0.85 * (0.16 * 192))) ∧
    nib 192 =
      [ offset_point (endP 192) (perp 192), nib_tip 192,
        offset_point (endP 192) (-(perp 192).1, -(perp 192).2) ]) :=
  ⟨by decide, C3_nib_apex 192 (by decide)⟩

/-- C4 (amended): for every size, the nib centerline is drawn from the nib
apex to `end` with stroke width `int(width * 0.08)` — the integer truncation
(floor) of `0.08*0.16*size` — not the exact real value `0.08*0.16*size`. -/
theorem C4_centerline (s : ℕ) :
    (draw_ops s).get? 4 =
      some (DrawOp.line [nib_tip s, offset_point (endP s) (0, 0)] PEN_NIB_LINE
        (line_width s)) ∧
    line_width s = ⌊0.08 * (0.16 * (s : ℝ))⌋ := by
  refine ⟨rfl, ?_⟩
  unfold line_width width
  congr 1
  ring

/-- C4 counterexample: at size 192 the stroke width actually passed to the
line draw call is `int(0.16*192*0.08) = int(2.4576) = 2`, which differs from
the claim's exact value `0.08*0.16*192 = 2.4576`. -/
theorem C4_counterexample :
    (draw_ops 192).get? 4 =
      some (DrawOp.line [nib_tip 192, offset_point (endP 192) (0, 0)] PEN_NIB_LINE
        (line_width 192)) ∧
    line_width 192 = 2 ∧ ((2 : ℤ) : ℝ) ≠ 0.08 * (0.16 * 192) := by
  refine ⟨rfl, ?_, by norm_num⟩
  unfold line_width width
  rw [Int.floor_eq_iff]
  constructor <;> norm_num

/-- C5: for every positive size, the axis length `hypot(dx, dy)` is strictly
positive, so the divisions `dx/length` and `dy/length` never divide by zero. -/
theorem C5_length_positive (s : ℕ) (hs : 0 < s) :
    0 < length s ∧ length s ≠ 0 :=
  ⟨length_pos s hs, ne_of_gt (length_pos s hs)⟩

theorem C5_witness : 0 < (192 : ℕ) ∧ (0 < length 192 ∧ length 192 ≠ 0) :=
  ⟨by decide, C5_length_positive 192 (by decide)⟩

/-- C6: the driver invokes the render routine exactly twice, for size 192 then
size 512 in that order, producing exactly the two files `pen-192.png` and
`pen-512.png` in the icons directory, printing the relative output path after
each save. -/
theorem C6_driver :
    main_sizes = [192, 512] ∧
    main_events =
      [ Event.save "public/icons/pen-192.png" "PNG",
        Event.printMsg "Saved public/icons/pen-192.png",
        Event.save "public/icons/pen-512.png" "PNG",
        Event.printMsg "Saved public/icons/pen-512.png" ] :=
  ⟨rfl, rfl⟩

/-- C7: for every positive size, the four body vertices form a rectangle:
the sides at the two endpoints have length exactly `width = 0.16*size`, the
two long sides have length exactly `hypot(0.5*size, 0.6*size)`, opposite
sides are equal as vectors, and adjacent sides are orthogonal. -/
theorem C7_body_rectangle (s : ℕ) (hs : 0 < s) :
    ∃ v0 v1 v2 v3 : ℝ × ℝ,
      body s = [v0, v1, v2, v3] ∧
      pdist v0 v1 = Real.sqrt ((0.5 * s) ^ 2 + (0.6 * s) ^ 2) ∧
      pdist v1 v2 = width s ∧
      pdist v2 v3 = Real.sqrt ((0.5 * s) ^ 2 + (0.6 * s) ^ 2) ∧
      pdist v3 v0 = width s ∧
      vsub v1 v0 = vsub v2 v3 ∧
      dotv (vsub v1 v0) (vsub v2 v1) = 0 := by
  have hu := perp_unit_sq s hs
  have hw0 := width_nonneg s
  refine ⟨offset_point (startP s) (perp s), offset_point (endP s) (perp s),
    offset_point (endP s) (-(perp s).1, -(perp s).2),
    offset_point (startP s) (-(perp s).1, -(perp s).2), rfl, ?_, ?_, ?_, ?_, ?_, ?_⟩
  · unfold pdist offset_point startP endP
    congr 1
    ring
  · have harg : pdist (offset_point (endP s) (perp s))
        (offset_point (endP s) (-(perp s).1, -(perp s).2)) =
        Real.sqrt ((width s * px s) ^ 2 + (width s * py s) ^ 2) := by
      unfold pdist offset_point perp half
      congr 1
      ring
    rw [harg, sqrt_scale _ _ _ hw0 hu]
  · unfold pdist offset_point startP endP
    congr 1
    ring
  · have harg : pdist (offset_point (startP s) (-(perp s).1, -(perp s).2))
        (offset_point (startP s) (perp s)) =
        Real.sqrt ((width s * px s) ^ 2 + (width s * py s) ^ 2) := by
      unfold pdist offset_point perp half
      congr 1
      ring
    rw [harg, sqrt_scale _ _ _ hw0 hu]
  · unfold vsub offset_point
    rw [Prod.mk.injEq]
    constructor <;> ring
  · unfold dotv vsub offset_point perp px py ux uy half dx dy startP endP
    ring

theorem C7_witness :
    0 < (192 : ℕ) ∧
    (∃ v0 v1 v2 v3 : ℝ × ℝ,
      body 192 = [v0, v1, v2, v3] ∧
      pdist v0 v1 = Real.sqrt ((0.5 * 192) ^ 2 + (0.6 * 192) ^ 2) ∧
      pdist v1 v2 = width 192 ∧
      pdist v2 v3 = Real.sqrt ((0.5 * 192) ^ 2 + (0.6 * 192) ^ 2) ∧
      pdist v3 v0 = width 192 ∧
      vsub v1 v0 = vsub v2 v3 ∧
      dotv (vsub v1 v0) (vsub v2 v1) = 0) :=
  ⟨by decide, C7_body_rectangle 192 (by decide)⟩

/-- C8: `create_icon` creates a canvas of pixel dimensions exactly
`size × size` in RGBA mode, initialized everywhere to the fixed background
color, and serializes it as PNG; the canvas-creation fill is the first draw
operation. -/
theorem C8_canvas (s : ℕ) :
    (new_canvas s).mode = "RGBA" ∧ (new_canvas s).w = s ∧ (new_canvas s).h = s ∧
    (∀ x y : ℕ, (new_canvas s).pixel x y = BACKGROUND) ∧
    save_format = "PNG" ∧
    (draw_ops s).head? = some (DrawOp.newCanvas "RGBA" s s BACKGROUND) :=
  ⟨rfl, rfl, rfl, fun _ _ => rfl, rfl, rfl⟩

/-- C9: `create_icon` is deterministic — the drawn geometry, palette, draw
operations, canvas, and emitted events are functions of `size` alone, so two
invocations with the same size produce identical results. -/
theorem C9_deterministic (s₁ s₂ : ℕ) (h : s₁ = s₂) :
    draw_ops s₁ = draw_ops s₂ ∧ create_icon_events s₁ = create_icon_events s₂ ∧
    new_canvas s₁ = new_canvas s₂ := by
  subst h
  exact ⟨rfl, rfl, rfl⟩

theorem C9_witness :
    (192 : ℕ) = 192 ∧
    (draw_ops 192 = draw_ops 192 ∧ create_icon_events 192 = create_icon_events 192 ∧
      new_canvas 192 = new_canvas 192) :=
  ⟨rfl, C9_deterministic 192 192 rfl⟩

/-- C10: the eraser/cap polygon is filled with `PEN_CLIP` (#bae6fd) while the
clip polygon is filled with `PEN_SHADOW` (#0ea5e9); the nib fill is `PEN_NIB`
and the centerline `PEN_NIB_LINE` — the shape-to-color assignment does not
match the shapes' names (the clip shape is not drawn in the clip color). -/
theorem C10_color_assignment (s : ℕ) :
    (draw_ops s).get? 5 = some (DrawOp.polygon (eraser s) PEN_CLIP) ∧
    (draw_ops s).get? 6 = some (DrawOp.polygon (clip s) PEN_SHADOW) ∧
    (draw_ops s).get? 3 = some (DrawOp.polygon (nib s) PEN_NIB) ∧
    (draw_ops s).get? 4 =
      some (DrawOp.line [nib_tip s, offset_point (endP s) (0, 0)] PEN_NIB_LINE
        (line_width s)) ∧
    PEN_CLIP = "#bae6fd" ∧ PEN_SHADOW = "#0ea5e9" ∧
    PEN_NIB = "#f8fafc" ∧ PEN_NIB_LINE = "#94a3b8" ∧
    PEN_CLIP ≠ PEN_SHADOW := by
  refine ⟨rfl, rfl, rfl, rfl, rfl, rfl, rfl, rfl, ?_⟩
  decide

end PenIcons
